import Mathlib

/-!
Verification development for a minimal HTTP greeting service
(`app/main.py`, tested by `tests/test_main.py`).

The service registers two GET routes on a web-framework application:
  - `/echo`        → handler `echo`,      returning `{"message": "Hello, World!"}`
  - `/echo/{name}` → handler `echo_name`, returning `{"message": f"Hello, {name}!"}`

We embed the JSON payloads the handlers build, the two handler functions,
and the dispatch by the framework of a request to a registered route.
-/

/-- A JSON object as this service produces them: every payload the handlers
(and the framework defaults) construct is a flat dict from field names to
string values, kept in insertion order. -/
abbrev Payload : Type := List (String × String)

/-- HTTP methods relevant to routing. The service registers GET routes only. -/
inductive Method where
  | GET
  | POST
  | PUT
  | DELETE
  | PATCH
deriving DecidableEq, Repr

/-- An HTTP response: status code and JSON body. -/
structure Response where
  status : Nat
  body : Payload
deriving DecidableEq

/-- Handler of `GET /echo` (`app/main.py`, `def echo`):
`return {"message": "Hello, World!"}`. -/
def echo : Payload :=
  [("message", "Hello, World!")]

/-- Handler of `GET /echo/{name}` (`app/main.py`, `def echo_name`):
`return {"message": f"Hello, {name}!"}`. -/
def echo_name (name : String) : Payload :=
  [("message", "Hello, " ++ name ++ "!")]

/-- Modelled from the spec: the route table lookup of the framework is framework
code absent from `src/` (only the route declarations, the decorators in
`app/main.py`, are in the repository). Per the spec, `/echo` matches the
one-segment path `echo`, and `/echo/{name}` binds `name` to "any non-empty
URL path segment", an empty segment matching no handler. The lookup returns
the body produced by the matched handler, or `none` when no route matches
the (percent-decoded) path segments. -/
def matchRoute : List String → Option Payload
  | ["echo"] => some echo
  | ["echo", name] => if name = "" then none else some (echo_name name)
  | _ => none

/-- Framework-default body of a 404 response. -/
def notFoundBody : Payload :=
  [("detail", "Not Found")]

/-- Framework-default body of a 405 response. -/
def methodNotAllowedBody : Payload :=
  [("detail", "Method Not Allowed")]

/-- Framework-default 404 response (unknown path). -/
def notFoundResponse : Response :=
  Response.mk 404 notFoundBody

/-- Framework-default 405 response (unsupported method on a known path). -/
def methodNotAllowedResponse : Response :=
  Response.mk 405 methodNotAllowedBody

/-- Modelled from the spec: framework dispatch, absent from `src/`. A request
whose path matches a registered route is answered with status 200 and the
payload of the handler when the method is GET (the only method the routes accept),
and with the framework default 405 otherwise; a request matching no route
falls through to the framework default 404. -/
def app (method : Method) (path : List String) : Response :=
  match matchRoute path with
  | some body =>
      if method = Method.GET then Response.mk 200 body
      else methodNotAllowedResponse
  | none => notFoundResponse

/-- A request trace: the server answers each request independently, in order. -/
def serve (trace : List (Method × List String)) : List Response :=
  trace.map fun r => app r.1 r.2

/-- A payload consisting of the single field `message` holding a string. -/
def isMessagePayload (j : Payload) : Prop :=
  ∃ s : String, j = [("message", s)]

/-- Recovery of the name from a greeting message, as the claim describes it:
strip the 7-character fixed prefix `Hello, ` and the fixed suffix `!`. -/
def recoverName (m : String) : String :=
  String.mk ((m.data.drop 7).dropLast)

/-- C2: `GET /echo` takes no inputs and returns status 200 with body
`{"message": "Hello, World!"}`, with no error conditions: the dispatch of
that request always succeeds with exactly this payload. -/
theorem echo_route_ok :
    app Method.GET ["echo"] = Response.mk 200 [("message", "Hello, World!")] :=
  rfl

/-- C1: for every non-empty URL path segment `s`, with no escaping,
sanitization or length limit applied, `GET /echo/{s}` returns status 200
with body `{"message": "Hello, {s}!"}`, `s` appearing verbatim. -/
theorem echo_name_route_ok (s : String) (h : s ≠ "") :
    app Method.GET ["echo", s] = Response.mk 200 [("message", "Hello, " ++ s ++ "!")] := by
  simp [app, matchRoute, h, echo_name]

theorem echo_name_route_ok_witness :
    ("DevOps" : String) ≠ "" ∧
      app Method.GET ["echo", "DevOps"] = Response.mk 200 [("message", "Hello, DevOps!")] :=
  ⟨by decide, echo_name_route_ok "DevOps" (by decide)⟩

/-- C3: the service defines no handler for `GET /health`; dispatching that
request yields the framework-default 404, not the status 200 with body
`{"status": "healthy"}` that `test_health` in `tests/test_main.py` (and the
claim) expect. Evaluation of the dispatch at the failing input: -/
theorem health_route_missing :
    app Method.GET ["health"] = Response.mk 404 [("detail", "Not Found")] :=
  rfl

/-- C4: a request whose path matches no registered route gets the
framework-default 404; a request whose path matches a route but whose
method is not GET gets the framework-default 405; in particular
`GET /unknown` returns 404. -/
theorem unmatched_request_default (m : Method) (p : List String) :
    (matchRoute p = none → app m p = notFoundResponse) ∧
      (m ≠ Method.GET → matchRoute p ≠ none → app m p = methodNotAllowedResponse) ∧
      app Method.GET ["unknown"] = notFoundResponse := by
  refine ⟨fun h => by simp [app, h], fun hm hp => ?_, rfl⟩
  cases hmr : matchRoute p with
  | none => exact absurd hmr hp
  | some b => simp [app, hmr, hm]

theorem unmatched_request_default_witness :
    app Method.POST ["echo"] = methodNotAllowedResponse ∧
      app Method.GET ["unknown"] = notFoundResponse :=
  ⟨(unmatched_request_default Method.POST ["echo"]).2.1 (by decide) (by decide),
    (unmatched_request_default Method.POST ["echo"]).2.2⟩

/-- C5: `GET /echo/` carries an empty path segment, which no handler matches
(the `{name}` parameter binds only non-empty segments), so dispatch yields
the framework-default 404 response. -/
theorem empty_segment_404 :
    matchRoute ["echo", ""] = none ∧ app Method.GET ["echo", ""] = notFoundResponse :=
  ⟨rfl, rfl⟩

/-- C6: `GET /echo` is deterministic and side-effect free: in any trace of
requests, every invocation of the echo handler — wherever it sits among
arbitrary other requests — returns status 200 with the identical body
`{"message": "Hello, World!"}`, and any two such invocations return equal
responses (idempotence). -/
theorem echo_deterministic (t : List (Method × List String)) (i j : Nat)
    (hi : i < t.length) (hj : j < t.length)
    (h1 : t.get ⟨i, hi⟩ = (Method.GET, ["echo"]))
    (h2 : t.get ⟨j, hj⟩ = (Method.GET, ["echo"])) :
    (serve t).get ⟨i, by simpa [serve] using hi⟩ = Response.mk 200 echo ∧
      (serve t).get ⟨j, by simpa [serve] using hj⟩ =
        (serve t).get ⟨i, by simpa [serve] using hi⟩ := by
  have g : ∀ (k : Nat) (hk : k < t.length), t.get ⟨k, hk⟩ = (Method.GET, ["echo"]) →
      (serve t).get ⟨k, by simpa [serve] using hk⟩ = Response.mk 200 echo := by
    intro k hk hreq
    have : (serve t).get ⟨k, by simpa [serve] using hk⟩
        = app (t.get ⟨k, hk⟩).1 (t.get ⟨k, hk⟩).2 := by
      simp [serve]
    rw [this, hreq]
    rfl
  exact ⟨g i hi h1, by rw [g i hi h1, g j hj h2]⟩

theorem echo_deterministic_witness :
    (serve [(Method.GET, ["echo"]), (Method.GET, ["unknown"]), (Method.GET, ["echo"])]).get
        ⟨0, by simp [serve]⟩ = Response.mk 200 echo ∧
      (serve [(Method.GET, ["echo"]), (Method.GET, ["unknown"]), (Method.GET, ["echo"])]).get
          ⟨2, by simp [serve]⟩ =
        (serve [(Method.GET, ["echo"]), (Method.GET, ["unknown"]), (Method.GET, ["echo"])]).get
          ⟨0, by simp [serve]⟩ :=
  echo_deterministic [(Method.GET, ["echo"]), (Method.GET, ["unknown"]), (Method.GET, ["echo"])]
    0 2 (by decide) (by decide) (by decide) (by decide)

/-- C7: invariant over every response a defined handler of the service
produces: the payload is a structured payload with the single field
`message`, whose value is a string. -/
theorem handlers_message_payload :
    isMessagePayload echo ∧ ∀ name : String, isMessagePayload (echo_name name) :=
  ⟨⟨"Hello, World!", rfl⟩, fun name => ⟨"Hello, " ++ name ++ "!", rfl⟩⟩

/-- C8: the unparameterized and parameterized handlers coincide at
`name = "World"`: the body of `GET /echo` equals the body of
`GET /echo/World`, i.e. `echo () = echo_name ("World")`. -/
theorem echo_coincides_at_world :
    echo = echo_name "World" ∧
      (app Method.GET ["echo"]).body = (app Method.GET ["echo", "World"]).body :=
  ⟨rfl, rfl⟩

/-- C9: `echo_name` is total and exception-free: for every string input,
including unusual characters, quotes or braces, it returns a well-formed
single-field payload; no error branch exists. -/
theorem echo_name_total (name : String) :
    ∃ msg : String, echo_name name = [("message", msg)] ∧ msg = "Hello, " ++ name ++ "!" :=
  ⟨"Hello, " ++ name ++ "!", rfl, rfl⟩

/-- C10: `echo_name` is injective — distinct inputs yield distinct messages —
and the input is recoverable from the message by stripping the fixed prefix
`Hello, ` and the fixed suffix `!` (a round-trip). -/
theorem echo_name_injective (s1 s2 : String) :
    (s1 ≠ s2 → echo_name s1 ≠ echo_name s2) ∧
      recoverName ("Hello, " ++ s1 ++ "!") = s1 := by
  constructor
  · intro hne heq
    apply hne
    have hmsg : "Hello, " ++ s1 ++ "!" = "Hello, " ++ s2 ++ "!" := by
      simpa [echo_name, List.cons.injEq, Prod.mk.injEq] using heq
    have hdata : s1.data ++ "!".data = s2.data ++ "!".data := by
      have := congrArg String.data hmsg
      simpa [String.data_append, List.append_assoc] using this
    exact String.ext (List.append_cancel_right hdata)
  · show String.mk ((("Hello, " ++ s1 ++ "!").data.drop 7).dropLast) = s1
    have hdata : ("Hello, " ++ s1 ++ "!").data
        = "Hello, ".data ++ (s1.data ++ ['!']) := by
      simp [String.data_append, List.append_assoc]
    rw [hdata]
    have hdrop : ("Hello, ".data ++ (s1.data ++ ['!'])).drop 7
        = s1.data ++ ['!'] := List.drop_left "Hello, ".data (s1.data ++ ['!'])
    rw [hdrop, List.dropLast_concat]

theorem echo_name_injective_witness :
    (("Ada" : String) ≠ "Bob" → echo_name "Ada" ≠ echo_name "Bob") ∧
      recoverName ("Hello, " ++ "Ada" ++ "!") = "Ada" :=
  echo_name_injective "Ada" "Bob"
